import Mathlib

/-!
Verification of the M16 modem library (IELS2001/M16-modem-lib).

The development shallowly embeds the C++ sources:

* `coder_decoder` — the `{3,3,10}` frame codec.  Two encoder variants exist in
  the sources: `encode` (src/src/protocol.cpp, masks every field before
  shifting) and the earlier `code` (src/protocol.cpp, shifts `id` and
  `command` unmasked; the `|=` into an `unsigned short` accumulator narrows
  each contribution modulo 2^16).
* `M16` — the `{4,4,8}` frame codec (`M16::encode` / `M16::decode`), the
  2-byte-buffer decode overload, `M16::sendPacket`,
  `M16::setCommunicationChannel`, and `M16::requestReport` with its
  bounded-retry polling loop and the 18-byte diagnostic-report parser.

Machine integers are embedded as `Nat`; narrowing conversions of the C++
integer types are written as explicit `% 2^w`, and the bit manipulation uses
`&&&`, `|||`, `<<<`, `>>>` exactly as the source writes `&`, `|`, `<<`, `>>`.
Byte I/O is modelled functionally: write-only operations return the list of
bytes they emit, and `requestReport` consumes a transport modelled as a
function from (read-attempt index, requested byte count) to the chunk of
bytes that read attempt yields.
-/

/-! ### Definitions: the `{3,3,10}` codec -/

namespace coder_decoder

/-- `coder_decoder::ProtocolStructure` (src/protocol.h): the decoded triple.
`command` is carried as the raw value of the `Command : unsigned char`
enumeration. -/
structure ProtocolStructure where
  id : Nat
  command : Nat
  data : Nat

/-- Values of the enumerators of `coder_decoder::Command`
(`SEND = 0`, `TEST = 0b101`). -/
def Command.values : List Nat := [0, 0b101]

/-- `coder_decoder::encode` (src/src/protocol.cpp, lines 56-63): every field
is masked before shifting. -/
def encode (id command data : Nat) : Nat :=
  (((0b00000111 &&& id) <<< (5 + 8)) ||| ((0b00000111 &&& command) <<< (2 + 8)))
    ||| (0b0000001111111111 &&& data)

/-- `coder_decoder::code` (src/protocol.cpp, lines 29-36): the earlier
encoder variant.  `id` and `command` are shifted without masking; the `|=`
into the `unsigned short` accumulator narrows each contribution modulo
`2^16`.  The parameters are an `unsigned char`, a `Command` (underlying type
`unsigned char`) and an `unsigned short`, hence the entry conversions. -/
def code (id command data : Nat) : Nat :=
  ((((id % 256) <<< (5 + 8)) % 65536) ||| (((command % 256) <<< (2 + 8)) % 65536))
    ||| (0b0000001111111111 &&& (data % 65536))

/-- `coder_decoder::decode` (src/src/protocol.cpp, lines 88-95; identical
extraction in src/protocol.cpp, lines 43-54). -/
def decode (messageToDecode : Nat) : ProtocolStructure where
  id := 0b0000000000000111 &&& (messageToDecode >>> (5 + 8))
  command := 0b0000000000000111 &&& (messageToDecode >>> (2 + 8))
  data := messageToDecode &&& 0b0000001111111111

end coder_decoder

/-! ### Definitions: the `{4,4,8}` codec and the session driver -/

namespace M16

/-- `ProtocolStructure` (src/include/M16-lib.h, lines 52-57).  `data` is an
`unsigned short` there; `M16::encode` receives it through an
`unsigned char` parameter. -/
structure ProtocolStructure where
  id : Nat
  command : Nat
  data : Nat

/-- Values of the enumerators of `Command` (src/include/M16-lib.h,
lines 31-41): `HI` through `SENSOR_DATA_RECEIVED`, i.e. `0` through `7`. -/
def Command.values : List Nat := [0, 1, 2, 3, 4, 5, 6, 7]

/-- `M16::encode` (src/src/protocol.cpp, lines 356-363): the `{4,4,8}`
layout, every field masked before shifting. -/
def encode (id command data : Nat) : Nat :=
  (((0b00001111 &&& id) <<< (4 + 8)) ||| ((0b00001111 &&& command) <<< 8))
    ||| (0b0000000011111111 &&& data)

/-- `M16::encode(ProtocolStructure)` (src/src/protocol.cpp, lines 374-377).
The structure's `unsigned short data` is narrowed through the
`unsigned char data` parameter of the three-argument `encode`. -/
def encodePS (send : ProtocolStructure) : Nat :=
  encode send.id send.command (send.data % 256)

/-- `M16::decode(unsigned short)` (src/src/protocol.cpp, lines 388-395). -/
def decode (messageToDecode : Nat) : ProtocolStructure where
  id := 0b0000000000001111 &&& (messageToDecode >>> (4 + 8))
  command := 0b0000000000001111 &&& (messageToDecode >>> 8)
  data := messageToDecode &&& 0b0000000011111111

/-- `M16::decode(uint8_t*)` (src/src/protocol.cpp, lines 397-404): the
2-byte-buffer decode overload, reading `messageToDecode[0]` and
`messageToDecode[1]`. -/
def decodeBytes (messageToDecode : List Nat) : ProtocolStructure where
  id := 0b00001111 &&& (messageToDecode.getD 0 0 >>> 4)
  command := 0b00001111 &&& messageToDecode.getD 0 0
  data := messageToDecode.getD 1 0

/-- `M16::sendPacket(unsigned short)` (src/src/protocol.cpp, lines 164-177):
splits the 16-bit word into two bytes, most-significant byte first, writes
them, and unconditionally returns `true`.  The result pairs the returned
`bool` with the bytes written to the transport; `% 65536` models the
`unsigned short` parameter. -/
def sendPacketWord (packet : Nat) : Bool × List Nat :=
  (true, [((packet % 65536) >>> 8) &&& 0xff, (packet % 65536) &&& 0xff])

/-- `M16::sendPacket(ProtocolStructure)` (src/src/protocol.cpp,
lines 313-321): encodes the structure and forwards the word. -/
def sendPacketPS (packet : ProtocolStructure) : Bool × List Nat :=
  sendPacketWord (encodePS packet)

/-- `M16::setCommunicationChannel` (src/src/protocol.cpp, lines 203-227).
An out-of-range channel makes the function return before any byte is
written (`none`); otherwise the result is the list of bytes written: the
trigger byte `0x63` twice, then the channel encoded as one ASCII byte. -/
def setCommunicationChannel (channel : Nat) : Option (List Nat) :=
  if channel < 1 ∨ channel > 12 then
    none
  else if channel ≤ 9 then
    some [0x63, 0x63, 0x30 + channel]
  else
    some [0x63, 0x63, 0x61 + (channel - 10)]

/-- `Report` (src/include/M16-lib.h, lines 59-80): the diagnostic report
record, one `Nat` per field. -/
structure Report where
  startOfFrame : Nat
  transportBlock : Nat
  bitErrorRate : Nat
  signalPower : Nat
  noisePower : Nat
  packetValid : Nat
  packedInvalid : Nat
  firmwareVersion : Nat
  timeSinceBoot : Nat
  chipID : Nat
  hwRev : Nat
  channel : Nat
  tbValid : Nat
  txComplete : Nat
  diagnostic : Nat
  reserved : Nat
  powerLevel : Nat
  reserved2 : Nat
  endOfFrame : Nat

/-- The all-zero report, matching the field initializers of
src/include/M16-lib.h. -/
def zeroReport : Report :=
  ⟨0, 0, 0, 0, 0, 0, 0, 0, 0, 0, 0, 0, 0, 0, 0, 0, 0, 0, 0⟩

/-- The field-assignment block of `M16::requestReport`
(src/src/protocol.cpp, lines 290-308), applied to the previously stored
report `r` and the 18 response bytes `b`.  The assignments to `reserved`
and `reserved2` are commented out in the source (lines 305 and 307), so
those two fields keep their previous values. -/
def parseReportInto (b : List Nat) (r : Report) : Report :=
  { r with
    startOfFrame := b.getD 0 0
    transportBlock := ((b.getD 1 0) <<< 8) ||| b.getD 2 0
    bitErrorRate := b.getD 3 0
    signalPower := b.getD 4 0
    noisePower := b.getD 5 0
    packetValid := ((b.getD 6 0) <<< 8) ||| b.getD 7 0
    packedInvalid := b.getD 8 0
    firmwareVersion := b.getD 9 0
    timeSinceBoot := (((b.getD 10 0) <<< 16) ||| ((b.getD 11 0) <<< 8)) ||| b.getD 12 0
    chipID := ((b.getD 13 0) <<< 8) ||| b.getD 14 0
    hwRev := b.getD 15 0 &&& 0b00000011
    channel := (b.getD 15 0 &&& 0b00111100) >>> 2
    tbValid := (b.getD 15 0 &&& 0b01000000) >>> 6
    txComplete := (b.getD 15 0 &&& 0b10000000) >>> 7
    diagnostic := b.getD 16 0 &&& 0b00000001
    powerLevel := (b.getD 16 0 &&& 0b00001100) >>> 2
    endOfFrame := b.getD 17 0 }

/-- The polling loop of `M16::requestReport` (src/src/protocol.cpp,
lines 270-289).  The transport `t` maps a read-attempt index and the
requested byte count to the chunk of bytes that `uart_read_bytes` call
yields.  `attempt` counts the read attempts already made, `bytesRead` and
`retries` are the loop variables of the source, `acc` the bytes collected
in `reportBytes` so far.  The result pairs the collected bytes (`none` if
the retry bound was exhausted, as in `return false`) with the total number
of read attempts made.  The source tests `retries++ > 100`, i.e. the
pre-increment value of the counter. -/
def reportLoop (t : Nat → Nat → List Nat) (attempt bytesRead retries : Nat)
    (acc : List Nat) : Option (List Nat) × Nat :=
  if h18 : bytesRead < 18 then
    if hc : 0 < (t attempt (18 - bytesRead)).length then
      reportLoop t (attempt + 1) (bytesRead + (t attempt (18 - bytesRead)).length)
        retries (acc ++ t attempt (18 - bytesRead))
    else
      if hr : retries > 100 then
        (none, attempt + 1)
      else
        reportLoop t (attempt + 1) bytesRead (retries + 1) acc
  else
    (some acc, attempt)
termination_by (18 - bytesRead) * 200 + (101 - retries)
decreasing_by
  · omega
  · omega

/-- Result of `M16::requestReport` (src/src/protocol.cpp, lines 264-311):
the returned `bool`, the stored report after the call, and the bytes the
call wrote to the transport. -/
structure ReqResult where
  ok : Bool
  report : Report
  sent : List Nat

/-- `M16::requestReport` (src/src/protocol.cpp, lines 264-311): sends the
trigger byte `0x72` twice, runs the polling loop, and on success parses the
18 collected bytes into the stored report.  On failure (`return false` at
line 286) the stored report is not touched. -/
def requestReport (t : Nat → Nat → List Nat) (r : Report) : ReqResult :=
  match reportLoop t 0 0 0 [] with
  | (none, _) => ⟨false, r, [0x72, 0x72]⟩
  | (some bs, _) => ⟨true, parseReportInto bs r, [0x72, 0x72]⟩

/-- A transport whose every read attempt yields zero bytes. -/
def allEmptyTransport : Nat → Nat → List Nat := fun _ _ => []

/-- The 18 response bytes of the spec's report-assembly test vector. -/
def reportBytes18 : List Nat :=
  [0xAA, 0x01, 0x02, 0x10, 0x20, 0x30, 0x00, 0x05, 0x01,
   0x02, 0x00, 0x01, 0x00, 0x12, 0x34, 0b10110101, 0b00000101, 0x55]

/-- A transport that yields `reportBytes18` in its first read attempt and
nothing afterwards. -/
def reportTransport : Nat → Nat → List Nat :=
  fun attempt _ => if attempt = 0 then reportBytes18 else []

/-- The all-zero report with `reserved := 7` (a marker for the pre-call
value of the unassigned `reserved` field). -/
def reportRes7 : Report := { zeroReport with reserved := 7 }

/-- The all-zero report with `reserved := 3`. -/
def reportRes3 : Report := { zeroReport with reserved := 3 }

end M16

/-! ### Bridges between bit operations and arithmetic -/

/-- `x &&& 7 = x % 8` (mask `0b111`). -/
theorem and_seven_eq_mod (x : Nat) : x &&& 7 = x % 8 :=
  Nat.and_pow_two_sub_one_eq_mod x 3

/-- `x &&& 15 = x % 16` (mask `0b1111`). -/
theorem and_fifteen_eq_mod (x : Nat) : x &&& 15 = x % 16 :=
  Nat.and_pow_two_sub_one_eq_mod x 4

/-- `x &&& 255 = x % 256` (mask `0xff`). -/
theorem and_byte_eq_mod (x : Nat) : x &&& 255 = x % 256 :=
  Nat.and_pow_two_sub_one_eq_mod x 8

/-- `x &&& 1023 = x % 1024` (mask `0b1111111111`). -/
theorem and_ten_bits_eq_mod (x : Nat) : x &&& 1023 = x % 1024 :=
  Nat.and_pow_two_sub_one_eq_mod x 10

/-- Packing step: oring a multiple of `2^i` with a value below `2^i` is
addition. -/
theorem or_low_eq_add (i a b : Nat) (hb : b < 2 ^ i) :
    (a * 2 ^ i) ||| b = a * 2 ^ i + b := by
  rw [Nat.mul_comm a (2 ^ i), ← Nat.mul_add_lt_is_or hb a]

namespace coder_decoder

/-- Arithmetic form of `coder_decoder.encode`: the three masked fields are
packed at weights `2^13`, `2^10`, `2^0`. -/
theorem encode3310_eq (id command data : Nat) :
    encode id command data =
      8192 * (id % 8) + 1024 * (command % 8) + data % 1024 := by
  unfold encode
  rw [Nat.and_comm 7 id, Nat.and_comm 7 command, Nat.and_comm 1023 data,
    and_seven_eq_mod, and_seven_eq_mod, and_ten_bits_eq_mod,
    Nat.shiftLeft_eq, Nat.shiftLeft_eq]
  rw [or_low_eq_add (5 + 8) (id % 8) (command % 8 * 2 ^ (2 + 8)) (by omega)]
  have h : id % 8 * 2 ^ (5 + 8) + command % 8 * 2 ^ (2 + 8)
      = (8 * (id % 8) + command % 8) * 2 ^ (2 + 8) := by ring
  rw [h, or_low_eq_add (2 + 8) _ (data % 1024) (by omega)]
  ring

/-- Arithmetic form of `coder_decoder.decode`. -/
theorem decode3310_eq (w : Nat) :
    decode w = ⟨w / 8192 % 8, w / 1024 % 8, w % 1024⟩ := by
  unfold decode
  rw [Nat.and_comm 7 (w >>> (5 + 8)), Nat.and_comm 7 (w >>> (2 + 8)),
    and_seven_eq_mod, and_seven_eq_mod, and_ten_bits_eq_mod,
    Nat.shiftRight_eq_div_pow, Nat.shiftRight_eq_div_pow]

end coder_decoder

namespace M16

/-- Arithmetic form of `M16.encode`: the three masked fields are packed at
weights `2^12`, `2^8`, `2^0`. -/
theorem encode448_eq (id command data : Nat) :
    encode id command data =
      4096 * (id % 16) + 256 * (command % 16) + data % 256 := by
  unfold encode
  rw [Nat.and_comm 15 id, Nat.and_comm 15 command, Nat.and_comm 255 data,
    and_fifteen_eq_mod, and_fifteen_eq_mod, and_byte_eq_mod,
    Nat.shiftLeft_eq, Nat.shiftLeft_eq]
  rw [or_low_eq_add (4 + 8) (id % 16) (command % 16 * 2 ^ 8) (by omega)]
  have h : id % 16 * 2 ^ (4 + 8) + command % 16 * 2 ^ 8
      = (16 * (id % 16) + command % 16) * 2 ^ 8 := by ring
  rw [h, or_low_eq_add 8 _ (data % 256) (by omega)]
  ring

/-- Arithmetic form of `M16.decode`. -/
theorem decode448_eq (w : Nat) :
    decode w = ⟨w / 4096 % 16, w / 256 % 16, w % 256⟩ := by
  unfold decode
  rw [Nat.and_comm 15 (w >>> (4 + 8)), Nat.and_comm 15 (w >>> 8),
    and_fifteen_eq_mod, and_fifteen_eq_mod, and_byte_eq_mod,
    Nat.shiftRight_eq_div_pow, Nat.shiftRight_eq_div_pow]

/-! ### Step lemmas for the polling loop -/

/-- Loop exit: 18 bytes collected. -/
theorem reportLoop_done (t : Nat → Nat → List Nat) (a br k : Nat)
    (acc : List Nat) (h : ¬ br < 18) :
    reportLoop t a br k acc = (some acc, a) := by
  rw [reportLoop]
  simp [h]

/-- Loop step: the read attempt yields a nonempty chunk. -/
theorem reportLoop_read (t : Nat → Nat → List Nat) (a br k : Nat)
    (acc : List Nat) (h : br < 18) (hc : 0 < (t a (18 - br)).length) :
    reportLoop t a br k acc =
      reportLoop t (a + 1) (br + (t a (18 - br)).length) k
        (acc ++ t a (18 - br)) := by
  rw [reportLoop]
  simp [h, hc]

/-- Loop step: a zero-byte read attempt with the retry counter not yet
exhausted. -/
theorem reportLoop_retry (t : Nat → Nat → List Nat) (a br k : Nat)
    (acc : List Nat) (h : br < 18) (hc : ¬ 0 < (t a (18 - br)).length)
    (hk : ¬ k > 100) :
    reportLoop t a br k acc = reportLoop t (a + 1) br (k + 1) acc := by
  rw [reportLoop]
  simp [h, hc, hk]

/-- Loop abort: a zero-byte read attempt with the pre-increment retry
counter above 100. -/
theorem reportLoop_fail (t : Nat → Nat → List Nat) (a br k : Nat)
    (acc : List Nat) (h : br < 18) (hc : ¬ 0 < (t a (18 - br)).length)
    (hk : k > 100) :
    reportLoop t a br k acc = (none, a + 1) := by
  rw [reportLoop]
  simp [h, hc, hk]

/-- Against a transport whose reads all yield zero bytes, the polling loop
started with retry counter `k`, `k + m = 101`, makes `m + 1` further read
attempts and aborts. -/
theorem reportLoop_empty_run (t : Nat → Nat → List Nat)
    (ht : ∀ n len, t n len = []) :
    ∀ m k a br acc, k + m = 101 → br < 18 →
      reportLoop t a br k acc = (none, a + (m + 1)) := by
  intro m
  induction m with
  | zero =>
    intro k a br acc hk hbr
    rw [reportLoop_fail t a br k acc hbr (by simp [ht]) (by omega)]
  | succ n ih =>
    intro k a br acc hk hbr
    rw [reportLoop_retry t a br k acc hbr (by simp [ht]) (by omega)]
    rw [ih (k + 1) (a + 1) br acc (by omega) hbr]
    rw [Prod.mk.injEq]
    exact ⟨rfl, by omega⟩

/-- Against a transport whose reads all yield zero bytes, `requestReport`
fails after exactly 102 read attempts and leaves the report argument
untouched. -/
theorem requestReport_empty_run (t : Nat → Nat → List Nat)
    (ht : ∀ n len, t n len = []) (r : Report) :
    requestReport t r = ⟨false, r, [0x72, 0x72]⟩ ∧
      reportLoop t 0 0 0 [] = (none, 102) := by
  have h := reportLoop_empty_run t ht 101 0 0 0 [] (by omega) (by omega)
  refine ⟨?_, h⟩
  unfold requestReport
  rw [h]

/-- Running the polling loop against `reportTransport` collects the 18
bytes in one read attempt. -/
theorem reportLoop_reportTransport :
    reportLoop reportTransport 0 0 0 [] = (some reportBytes18, 1) := by
  rw [reportLoop_read reportTransport 0 0 0 [] (by omega) (by decide)]
  have ht : reportTransport 0 (18 - 0) = reportBytes18 := rfl
  rw [ht]
  rw [reportLoop_done reportTransport 1 (0 + reportBytes18.length) 0
    ([] ++ reportBytes18) (by decide)]
  simp

/-- Unfolding of `requestReport` when the polling loop succeeds. -/
theorem requestReport_of_some (t : Nat → Nat → List Nat) (r : Report)
    (bs : List Nat) (n : Nat) (h : reportLoop t 0 0 0 [] = (some bs, n)) :
    requestReport t r = ⟨true, parseReportInto bs r, [0x72, 0x72]⟩ := by
  unfold requestReport
  rw [h]

/-- `requestReport` against `reportTransport` succeeds and stores the parse
of the 18 bytes. -/
theorem requestReport_reportTransport (r : Report) :
    requestReport reportTransport r =
      ⟨true, parseReportInto reportBytes18 r, [0x72, 0x72]⟩ :=
  requestReport_of_some reportTransport r reportBytes18 1
    reportLoop_reportTransport

end M16

/-! ### The claims -/

/-- Claim C1: for every `id < 2^idBits`, every `data < 2^dataBits`, and every
valid `command` enumerator, decoding the word produced by encoding the triple
returns the same triple, both for the `{3,3,10}` codec
(`coder_decoder.encode`/`coder_decoder.decode`) and for the `{4,4,8}` codec
(`M16.encode`/`M16.decode`). -/
theorem claim_C1_roundtrip :
    (∀ id command data, id < 8 → command ∈ coder_decoder.Command.values →
      data < 1024 →
      coder_decoder.decode (coder_decoder.encode id command data) =
        ⟨id, command, data⟩) ∧
    (∀ id command data, id < 16 → command ∈ M16.Command.values → data < 256 →
      M16.decode (M16.encode id command data) = ⟨id, command, data⟩) := by
  constructor
  · intro id command data hid hc hd
    have hc8 : command < 8 := by
      simp [coder_decoder.Command.values] at hc
      omega
    rw [coder_decoder.decode3310_eq, coder_decoder.encode3310_eq,
      coder_decoder.ProtocolStructure.mk.injEq]
    refine ⟨by omega, by omega, by omega⟩
  · intro id command data hid hc hd
    have hc16 : command < 16 := by
      simp [M16.Command.values] at hc
      omega
    rw [M16.decode448_eq, M16.encode448_eq, M16.ProtocolStructure.mk.injEq]
    refine ⟨by omega, by omega, by omega⟩

/-- Witness for C1: the round trip at the concrete triples `(5, TEST, 341)`
(layout `{3,3,10}`) and `(5, CONDUCTIVITY_SENSOR, 171)` (layout `{4,4,8}`). -/
theorem claim_C1_roundtrip_witness :
    coder_decoder.decode (coder_decoder.encode 5 5 341) = ⟨5, 5, 341⟩ ∧
    M16.decode (M16.encode 5 5 171) = ⟨5, 5, 171⟩ :=
  ⟨claim_C1_roundtrip.1 5 5 341 (by norm_num) (by decide) (by norm_num),
   claim_C1_roundtrip.2 5 5 171 (by norm_num) (by decide) (by norm_num)⟩

/-- Claim C10: both codecs are full bijections on 16-bit words — for every
`w < 2^16`, re-encoding the decoded fields reproduces `w`, because the three
fields tile all 16 bits; this includes words whose command bits match no
enumerator. -/
theorem claim_C10_bijection :
    (∀ w, w < 65536 →
      coder_decoder.encode (coder_decoder.decode w).id
        (coder_decoder.decode w).command (coder_decoder.decode w).data = w) ∧
    (∀ w, w < 65536 →
      M16.encode (M16.decode w).id (M16.decode w).command
        (M16.decode w).data = w) := by
  constructor
  · intro w hw
    rw [coder_decoder.decode3310_eq]
    simp only [coder_decoder.encode3310_eq]
    omega
  · intro w hw
    rw [M16.decode448_eq]
    simp only [M16.encode448_eq]
    omega

/-- Witness for C10 at the word `0xABCD`, whose `{3,3,10}` command field
`0b101` is a valid enumerator while its `{4,4,8}` command field `0xB`
matches no enumerator. -/
theorem claim_C10_bijection_witness :
    coder_decoder.encode (coder_decoder.decode 0xABCD).id
      (coder_decoder.decode 0xABCD).command (coder_decoder.decode 0xABCD).data
        = 0xABCD ∧
    M16.encode (M16.decode 0xABCD).id (M16.decode 0xABCD).command
      (M16.decode 0xABCD).data = 0xABCD :=
  ⟨claim_C10_bijection.1 0xABCD (by norm_num),
   claim_C10_bijection.2 0xABCD (by norm_num)⟩

/-- Claim C6: for every 2-byte buffer, the byte-array decode overload
`M16::decode(uint8_t*)` agrees with the word-based decode applied to
`bytes[0] << 8 | bytes[1]`. -/
theorem claim_C6_decode_equiv :
    ∀ b0 b1, b0 < 256 → b1 < 256 →
      M16.decodeBytes [b0, b1] = M16.decode ((b0 <<< 8) ||| b1) := by
  intro b0 b1 h0 h1
  have hw : (b0 <<< 8) ||| b1 = 256 * b0 + b1 := by
    rw [Nat.shiftLeft_eq, or_low_eq_add 8 b0 b1 (by omega)]
    ring
  have hv : b0 >>> 4 = b0 / 16 := by
    rw [Nat.shiftRight_eq_div_pow]
  rw [hw, M16.decode448_eq]
  unfold M16.decodeBytes
  simp only [List.getD_cons_zero, List.getD_cons_succ]
  rw [Nat.and_comm 15 (b0 >>> 4), Nat.and_comm 15 b0, and_fifteen_eq_mod,
    and_fifteen_eq_mod, hv, M16.ProtocolStructure.mk.injEq]
  refine ⟨by omega, by omega, by omega⟩

/-- Witness for C6 at the buffer `[0xAB, 0xCD]`. -/
theorem claim_C6_decode_equiv_witness :
    M16.decodeBytes [0xAB, 0xCD] = M16.decode ((0xAB <<< 8) ||| 0xCD) :=
  claim_C6_decode_equiv 0xAB 0xCD (by norm_num) (by norm_num)

/-- Claim C2 (code bug in the earlier variant): the claim asserts that every
`{3,3,10}` encoder variant masks each field to its width, i.e.
`encode(id, command, data) = encode(id & 0b111, command & 0b111,
data & 0b1111111111)` for all inputs.  `coder_decoder.encode` satisfies this
for all inputs (last conjunct), and both variants satisfy the spec's concrete
instance `(0xFF, 0xFF, 0xFFFF)` (fourth and fifth conjuncts), but
`coder_decoder.code` violates the law at `(0, 8, 0)`: it shifts `command`
unmasked, so command bit 3 lands in the id field and
`code 0 8 0 = 0x2000 ≠ 0 = code 0 (8 & 0b111) 0`, contradicting the
function's own documentation that only the first 3 bits of `command` are
kept. -/
theorem claim_C2_truncation :
    coder_decoder.code 0 8 0 = 0x2000 ∧
    coder_decoder.code (0 &&& 0b00000111) (8 &&& 0b00000111)
      (0 &&& 0b0000001111111111) = 0 ∧
    coder_decoder.code 0 8 0 ≠
      coder_decoder.code (0 &&& 0b00000111) (8 &&& 0b00000111)
        (0 &&& 0b0000001111111111) ∧
    coder_decoder.encode 0xFF 0xFF 0xFFFF =
      coder_decoder.encode (0xFF &&& 0b00000111) (0xFF &&& 0b00000111)
        (0xFFFF &&& 0b0000001111111111) ∧
    coder_decoder.code 0xFF 0xFF 0xFFFF =
      coder_decoder.code (0xFF &&& 0b00000111) (0xFF &&& 0b00000111)
        (0xFFFF &&& 0b0000001111111111) ∧
    (∀ id command data, coder_decoder.encode id command data =
      coder_decoder.encode (id &&& 0b00000111) (command &&& 0b00000111)
        (data &&& 0b0000001111111111)) := by
  refine ⟨by decide, by decide, by decide, by decide, by decide, ?_⟩
  intro id command data
  rw [coder_decoder.encode3310_eq, coder_decoder.encode3310_eq,
    and_seven_eq_mod, and_seven_eq_mod, and_ten_bits_eq_mod]
  omega

/-- Claim C3: `setCommunicationChannel` rejects channels outside `1..12`
without writing any byte, and for valid channels writes the trigger byte
`0x63` twice followed by the ASCII byte `'0' + channel` for channels 1-9 or
`'a' + (channel - 10)` for channels 10-12; in particular channel 1 ends in
`'1'` (0x31) and channel 12 in `'c'` (0x63). -/
theorem claim_C3_channel_boundary :
    M16.setCommunicationChannel 0 = none ∧
    M16.setCommunicationChannel 13 = none ∧
    M16.setCommunicationChannel 1 = some [0x63, 0x63, 0x31] ∧
    M16.setCommunicationChannel 12 = some [0x63, 0x63, 0x63] ∧
    (∀ c, c < 10 → 1 ≤ c →
      M16.setCommunicationChannel c = some [0x63, 0x63, 0x30 + c]) ∧
    (∀ c, c < 13 → 10 ≤ c →
      M16.setCommunicationChannel c = some [0x63, 0x63, 0x61 + (c - 10)]) := by
  refine ⟨by decide, by decide, by decide, by decide, ?_, ?_⟩
  · intro c h10 h1
    unfold M16.setCommunicationChannel
    rw [if_neg (by omega), if_pos (by omega)]
  · intro c h13 h10
    unfold M16.setCommunicationChannel
    rw [if_neg (by omega), if_neg (by omega)]

/-- Witness for C3: the trailing byte at channels 5 (`'5'`) and 11 (`'b'`). -/
theorem claim_C3_channel_boundary_witness :
    M16.setCommunicationChannel 5 = some [0x63, 0x63, 0x35] ∧
    M16.setCommunicationChannel 11 = some [0x63, 0x63, 0x62] :=
  ⟨claim_C3_channel_boundary.2.2.2.2.1 5 (by norm_num) (by norm_num),
   claim_C3_channel_boundary.2.2.2.2.2 11 (by norm_num) (by norm_num)⟩

/-- Claim C8: for every frame, `sendPacket(ProtocolStructure)` encodes it
with the `{4,4,8}` layout and produces exactly two bytes — the
most-significant byte of the encoded word first, then the least-significant
byte — and returns `true` (the source never inspects the transport write's
outcome). -/
theorem claim_C8_sendPacket :
    ∀ id command data,
      M16.sendPacketPS ⟨id, command, data⟩ =
        (true, [M16.encode id command data / 256,
                M16.encode id command data % 256]) := by
  intro id command data
  unfold M16.sendPacketPS M16.sendPacketWord M16.encodePS
  have hb : ∀ x : Nat, (x % 65536) >>> 8 = x % 65536 / 256 := by
    intro x
    rw [Nat.shiftRight_eq_div_pow]
  simp only [hb, and_byte_eq_mod, M16.encode448_eq, Prod.mk.injEq,
    List.cons.injEq, and_true, true_and]
  refine ⟨by omega, by omega⟩

/-- Counterexample for C4: against the transport whose every read yields
zero bytes the polling loop aborts after 102 read attempts, not after 100
as the claim states (the source tests `retries++ > 100`, so the pre-increment
counter must reach 101 before the loop returns `false`). -/
theorem claim_C4_counterexample :
    (M16.reportLoop M16.allEmptyTransport 0 0 0 []).1 = none ∧
    (M16.reportLoop M16.allEmptyTransport 0 0 0 []).2 = 102 ∧
    (M16.reportLoop M16.allEmptyTransport 0 0 0 []).2 ≠ 100 := by
  have h := (M16.requestReport_empty_run M16.allEmptyTransport
    (fun _ _ => rfl) M16.zeroReport).2
  rw [h]
  exact ⟨rfl, rfl, by omega⟩

/-- Claim C4 as amended: against any transport whose every read attempt
yields zero bytes, `requestReport` fails (returns `false`, leaving the
stored report untouched, so no report is produced) after exactly 102
zero-byte read attempts — each such attempt increments the retry counter
and the loop aborts on the attempt whose pre-increment counter value
exceeds 100. -/
theorem claim_C4_retry_exhaustion :
    ∀ t r, (∀ n len, t n len = []) →
      (M16.requestReport t r).ok = false ∧
      (M16.requestReport t r).report = r ∧
      (M16.reportLoop t 0 0 0 []).1 = none ∧
      (M16.reportLoop t 0 0 0 []).2 = 102 := by
  intro t r ht
  obtain ⟨h1, h2⟩ := M16.requestReport_empty_run t ht r
  rw [h1, h2]
  exact ⟨rfl, rfl, rfl, rfl⟩

/-- Witness for C4 at the concrete all-empty transport and the all-zero
initial report. -/
theorem claim_C4_retry_exhaustion_witness :
    (M16.requestReport M16.allEmptyTransport M16.zeroReport).ok = false ∧
    (M16.requestReport M16.allEmptyTransport M16.zeroReport).report
      = M16.zeroReport ∧
    (M16.reportLoop M16.allEmptyTransport 0 0 0 []).1 = none ∧
    (M16.reportLoop M16.allEmptyTransport 0 0 0 []).2 = 102 :=
  claim_C4_retry_exhaustion M16.allEmptyTransport M16.zeroReport
    (fun _ _ => rfl)

/-- Claim C5: whenever `requestReport` fails (returns `false`), the stored
report is exactly its pre-call value — no partial report and no individual
field is exposed. -/
theorem claim_C5_timeout_preserves :
    ∀ t r, (M16.requestReport t r).ok = false →
      (M16.requestReport t r).report = r := by
  intro t r h
  unfold M16.requestReport at h ⊢
  rcases hl : M16.reportLoop t 0 0 0 [] with ⟨os, n⟩
  rw [hl] at h
  rcases os with _ | bs
  · rfl
  · exact Bool.noConfusion h

/-- Witness for C5 at the all-empty transport, whose `requestReport` call
fails. -/
theorem claim_C5_timeout_preserves_witness :
    (M16.requestReport M16.allEmptyTransport M16.zeroReport).ok = false ∧
    (M16.requestReport M16.allEmptyTransport M16.zeroReport).report
      = M16.zeroReport := by
  have h := (M16.requestReport_empty_run M16.allEmptyTransport
    (fun _ _ => rfl) M16.zeroReport).1
  have hok : (M16.requestReport M16.allEmptyTransport M16.zeroReport).ok
      = false := by
    rw [h]
  exact ⟨hok, claim_C5_timeout_preserves M16.allEmptyTransport
    M16.zeroReport hok⟩

/-- Claim C7: against a transport yielding the spec's 18 test-vector bytes
in one read, `requestReport` succeeds and the parsed report has
`startOfFrame = 0xAA`, `transportBlock = 0x0102`, `chipID = 0x1234`,
`hwRev = 1`, `channel = 13`, `tbValid = 0`, `txComplete = 1`, and
`powerLevel = 1`, per the packed-byte sub-field layout of bytes 15 and 16. -/
theorem claim_C7_report_assembly :
    (M16.requestReport M16.reportTransport M16.zeroReport).ok = true ∧
    (M16.requestReport M16.reportTransport M16.zeroReport).report.startOfFrame
      = 0xAA ∧
    (M16.requestReport M16.reportTransport M16.zeroReport).report.transportBlock
      = 0x0102 ∧
    (M16.requestReport M16.reportTransport M16.zeroReport).report.chipID
      = 0x1234 ∧
    (M16.requestReport M16.reportTransport M16.zeroReport).report.hwRev = 1 ∧
    (M16.requestReport M16.reportTransport M16.zeroReport).report.channel
      = 13 ∧
    (M16.requestReport M16.reportTransport M16.zeroReport).report.tbValid
      = 0 ∧
    (M16.requestReport M16.reportTransport M16.zeroReport).report.txComplete
      = 1 ∧
    (M16.requestReport M16.reportTransport M16.zeroReport).report.powerLevel
      = 1 := by
  rw [M16.requestReport_reportTransport M16.zeroReport]
  decide

/-- Counterexample for C9: the claim says every field of the stored report,
including the reserved sub-fields, is overwritten from the new response on a
successful `requestReport`; but the source's assignments to `reserved` and
`reserved2` are commented out, so after an identical successful call the
`reserved` field still holds whatever it held before the call (7 and 3
here for two different pre-call reports). -/
theorem claim_C9_counterexample :
    (M16.requestReport M16.reportTransport M16.reportRes7).ok = true ∧
    (M16.requestReport M16.reportTransport M16.reportRes7).report.reserved
      = 7 ∧
    (M16.requestReport M16.reportTransport M16.reportRes3).report.reserved
      = 3 := by
  rw [M16.requestReport_reportTransport M16.reportRes7,
    M16.requestReport_reportTransport M16.reportRes3]
  decide

/-- Claim C9 as amended: on every successful `requestReport`, every field of
the stored report except `reserved` and `reserved2` is overwritten with a
value derived from the new response bytes alone (the final report fields
agree whatever report was stored before the call, and success itself does
not depend on it), while `reserved` and `reserved2` — whose extraction is
commented out in the source — retain their pre-call values. -/
theorem claim_C9_fresh_fields :
    ∀ t r r', (M16.requestReport t r).ok = true →
      (M16.requestReport t r').ok = true ∧
      (M16.requestReport t r).report.reserved = r.reserved ∧
      (M16.requestReport t r).report.reserved2 = r.reserved2 ∧
      (M16.requestReport t r).report.startOfFrame
        = (M16.requestReport t r').report.startOfFrame ∧
      (M16.requestReport t r).report.transportBlock
        = (M16.requestReport t r').report.transportBlock ∧
      (M16.requestReport t r).report.bitErrorRate
        = (M16.requestReport t r').report.bitErrorRate ∧
      (M16.requestReport t r).report.signalPower
        = (M16.requestReport t r').report.signalPower ∧
      (M16.requestReport t r).report.noisePower
        = (M16.requestReport t r').report.noisePower ∧
      (M16.requestReport t r).report.packetValid
        = (M16.requestReport t r').report.packetValid ∧
      (M16.requestReport t r).report.packedInvalid
        = (M16.requestReport t r').report.packedInvalid ∧
      (M16.requestReport t r).report.firmwareVersion
        = (M16.requestReport t r').report.firmwareVersion ∧
      (M16.requestReport t r).report.timeSinceBoot
        = (M16.requestReport t r').report.timeSinceBoot ∧
      (M16.requestReport t r).report.chipID
        = (M16.requestReport t r').report.chipID ∧
      (M16.requestReport t r).report.hwRev
        = (M16.requestReport t r').report.hwRev ∧
      (M16.requestReport t r).report.channel
        = (M16.requestReport t r').report.channel ∧
      (M16.requestReport t r).report.tbValid
        = (M16.requestReport t r').report.tbValid ∧
      (M16.requestReport t r).report.txComplete
        = (M16.requestReport t r').report.txComplete ∧
      (M16.requestReport t r).report.diagnostic
        = (M16.requestReport t r').report.diagnostic ∧
      (M16.requestReport t r).report.powerLevel
        = (M16.requestReport t r').report.powerLevel ∧
      (M16.requestReport t r).report.endOfFrame
        = (M16.requestReport t r').report.endOfFrame := by
  intro t r r' h
  unfold M16.requestReport at h ⊢
  rcases hl : M16.reportLoop t 0 0 0 [] with ⟨os, n⟩
  rw [hl] at h
  rcases os with _ | bs
  · exact Bool.noConfusion h
  · exact ⟨rfl, rfl, rfl, rfl, rfl, rfl, rfl, rfl, rfl, rfl, rfl, rfl, rfl,
      rfl, rfl, rfl, rfl, rfl, rfl, rfl⟩

/-- Witness for C9 at the test-vector transport and a pre-call report whose
`reserved` field is 7: the call succeeds and `reserved` keeps its pre-call
value. -/
theorem claim_C9_fresh_fields_witness :
    (M16.requestReport M16.reportTransport M16.reportRes7).ok = true ∧
    (M16.requestReport M16.reportTransport M16.reportRes7).report.reserved
      = M16.reportRes7.reserved := by
  have hok : (M16.requestReport M16.reportTransport M16.reportRes7).ok
      = true := by
    rw [M16.requestReport_reportTransport]
  exact ⟨hok, (claim_C9_fresh_fields M16.reportTransport M16.reportRes7
    M16.zeroReport hok).2.1⟩
